import Mathlib

/-!
Shallow embedding of scripts/decimate_beetle.py, a Blender batch script that
imports a GLB file, applies a collapse decimation modifier with a fixed ratio
to every mesh object, exports the result as GLB, and verifies the output file.

The host application (Blender, reached through the bpy module) is modelled by
an abstract environment: what the import produces, whether each host call
succeeds, and whether the exported file exists afterwards. The script body is
translated line by line into a pure function producing a trace of host-visible
events together with a process outcome.
-/

/-- Configuration constant INPUT_PATH of the script. -/
def INPUT_PATH : String := "public/assets/models/beetle_shell.glb"

/-- Configuration constant OUTPUT_PATH of the script. -/
def OUTPUT_PATH : String := "public/assets/models/beetle_shell_optimized.glb"

/-- Configuration constant TARGET_RATIO of the script, the fraction 0.02. -/
def TARGET_RATIO : ℚ := 2 / 100

/-- Split a character list on the slash separator, keeping empty groups, as
splitting an absolute path produces a leading empty group. -/
def splitOnSlash : List Char → List (List Char)
  | [] => [[]]
  | c :: rest =>
    match splitOnSlash rest with
    | [] => [[]]
    | g :: gs => if c = '/' then [] :: g :: gs else (c :: g) :: gs

/-- Rejoin character groups with slash separators. -/
def joinSlash : List (List Char) → List Char
  | [] => []
  | [g] => g
  | g :: gs => g ++ '/' :: joinSlash gs

/-- Model of posixpath.dirname for the canonical multi-component absolute
paths the script works with: drop the final path component. -/
def dirname (p : String) : String :=
  String.mk (joinSlash ((splitOnSlash p.data).dropLast))

/-- Model of posixpath.join for two components: an absolute second component
wins, otherwise the components are concatenated with a separator unless the
first already ends with one or is empty. -/
def joinPath (a b : String) : String :=
  if b.data.head? = some '/' then b
  else if a.data = [] ∨ a.data.getLast? = some '/' then a ++ b
  else a ++ "/" ++ b

/-- A Blender scene object as the script sees it: a name, an object type tag
such as MESH or CAMERA, and the vertex count of its mesh data. -/
structure SceneObject where
  name : String
  type : String
  verts : Nat
deriving Repr, DecidableEq

/-- The three fields the script sets on the Decimate modifier. -/
structure DecimateConfig where
  decimate_type : String
  ratio : ℚ
  use_collapse_triangulate : Bool
deriving Repr, DecidableEq

/-- The keyword arguments the script passes to the glTF exporter. -/
structure ExportConfig where
  filepath : String
  export_format : String
  use_selection : Bool
  export_apply : Bool
deriving Repr, DecidableEq

/-- Host-visible events of one run, in program order: printed lines are
carried with their dynamic values, and every bpy operator call is an event. -/
inductive Event where
  | printMsg (msg : String)
  | printInput (path : String)
  | printOutput (path : String)
  | printRatio (pct : ℚ)
  | readFactorySettings (use_empty : Bool)
  | importGltf (filepath : String)
  | printFound (numMeshes totalVerts : Nat)
  | printProcessing (objName : String) (verts : Nat)
  | setActive (objName : String)
  | selectSet (objName : String) (state : Bool)
  | addDecimateModifier (objName : String) (cfg : DecimateConfig)
  | applyModifier (objName : String) (modName : String)
  | printAfter (verts : Nat)
  | printTotal (before after : Nat) (reduction : ℚ)
  | printExporting (path : String)
  | exportGltf (cfg : ExportConfig)
  | printSize (sizeMB : ℚ)
deriving Repr, DecidableEq

/-- Outcome of one run of the script process: a normal return from main
(process exit code 0), a sys.exit with the given code, or an unhandled
exception propagating out of main. -/
inductive Outcome where
  | finished
  | exited (code : Nat)
  | raised (err : String)
deriving Repr, DecidableEq

/-- Abstract host environment of one run: the absolute path of the script
file, the result of each bpy call the script makes, and the state of the
file system after the export. Modifier application is fallible per object. -/
structure HostEnv where
  scriptAbsPath : String
  readFactoryResult : Except String Unit
  importResult : Except String (List SceneObject)
  applyModifierResult : SceneObject → Except String Unit
  exportResult : Except String Unit
  outputExists : Bool
  outputSizeBytes : Nat

/-- Modelled from the spec: the host collapse decimation is not in this
repository; per the spec glossary the target ratio is the fraction of the
original vertex count retained after decimation, so the resulting count is
the ratio 2/100 times the original count, rounded down. -/
def decimateVerts (n : Nat) : Nat :=
  2 * n / 100

/-- The modifier configuration the script sets on every mesh. -/
def decimateCfg : DecimateConfig :=
  { decimate_type := "COLLAPSE", ratio := TARGET_RATIO, use_collapse_triangulate := true }

/-- The filter the script applies to scene objects: keep the meshes. -/
def meshObjects (objs : List SceneObject) : List SceneObject :=
  objs.filter fun o => o.type == "MESH"

/-- Sum of the vertex counts of a list of objects, as in the script totals. -/
def totalVerts (l : List SceneObject) : Nat :=
  (l.map SceneObject.verts).sum

/-- The decimation loop body replaces each vertex count by its decimated
value; this is the list of mesh objects after a successful loop. -/
def decimatedMeshes (l : List SceneObject) : List SceneObject :=
  l.map fun o => { o with verts := decimateVerts o.verts }

/-- The events one loop iteration emits for a mesh object when the modifier
application succeeds, in program order. -/
def perMeshEvents (obj : SceneObject) : List Event :=
  [Event.printProcessing obj.name obj.verts,
   Event.setActive obj.name,
   Event.selectSet obj.name true,
   Event.addDecimateModifier obj.name decimateCfg,
   Event.applyModifier obj.name "Decimate",
   Event.printAfter (decimateVerts obj.verts),
   Event.selectSet obj.name false]

/-- Concatenation of the per-mesh loop events over a list of meshes. -/
def eventsOfMeshes (l : List SceneObject) : List Event :=
  l.foldr (fun o acc => perMeshEvents o ++ acc) []

/-- The decimation loop of the script over the given mesh objects: emits
events and either returns the decimated objects or stops at the first mesh
whose modifier application raises a host error. -/
def decimateLoop (env : HostEnv) : List SceneObject → List Event × Except String (List SceneObject)
  | [] => ([], Except.ok [])
  | obj :: rest =>
    let hd : List Event :=
      [Event.printProcessing obj.name obj.verts,
       Event.setActive obj.name,
       Event.selectSet obj.name true,
       Event.addDecimateModifier obj.name decimateCfg,
       Event.applyModifier obj.name "Decimate"]
    match env.applyModifierResult obj with
    | Except.error e => (hd, Except.error e)
    | Except.ok _ =>
      let obj2 : SceneObject := { obj with verts := decimateVerts obj.verts }
      let res := decimateLoop env rest
      (hd ++ [Event.printAfter obj2.verts, Event.selectSet obj.name false] ++ res.1,
       res.2.map fun l => obj2 :: l)

/-- The projectRoot computed at the start of main: dirname applied twice to
the absolute script path. -/
def projectRoot (env : HostEnv) : String :=
  dirname (dirname env.scriptAbsPath)

/-- The input_file path main computes. -/
def inputFile (env : HostEnv) : String :=
  joinPath (projectRoot env) INPUT_PATH

/-- The output_file path main computes. -/
def outputFile (env : HostEnv) : String :=
  joinPath (projectRoot env) OUTPUT_PATH

/-- The export configuration main passes to bpy.ops.export for the scene. -/
def exportCfg (env : HostEnv) : ExportConfig :=
  { filepath := outputFile env, export_format := "GLB",
    use_selection := true, export_apply := true }

/-- The error message printed when the imported scene has no meshes. -/
def noMeshErrorMsg : String := "[Decimate] ERROR: No mesh objects found!"

/-- The error message printed when the output file is missing after export. -/
def noOutputErrorMsg : String := "[Decimate] ERROR: Output file was not created!"

/-- Events main emits before the first fallible host call. -/
def headerEvents (env : HostEnv) : List Event :=
  [Event.printInput (inputFile env),
   Event.printOutput (outputFile env),
   Event.printRatio ( TARGET_RATIO * 100),
   Event.readFactorySettings true]

/-- Events main has emitted once the import call has been made. -/
def importEvents (env : HostEnv) : List Event :=
  headerEvents env ++
  [Event.printMsg "[Decimate] Importing GLB...", Event.importGltf (inputFile env)]

/-- Events main has emitted once the mesh count line is printed. -/
def foundEvents (env : HostEnv) (objs : List SceneObject) : List Event :=
  importEvents env ++
  [Event.printFound (meshObjects objs).length (totalVerts (meshObjects objs))]

/-- The megabyte size main reports for the output file. -/
def sizeMB (env : HostEnv) : ℚ :=
  (env.outputSizeBytes : ℚ) / (1024 * 1024)

/-- The body of main, translated line by line from the script. Every bpy
call consults the environment; an error result propagates as a raised
outcome, matching the absence of any exception handler in the script. The
division computing the reduction is guarded in the model only by the
explicit ZeroDivisionError branch, exactly where Python would raise. -/
def decimateMain (env : HostEnv) : List Event × Outcome :=
  match env.readFactoryResult with
  | Except.error e => (headerEvents env, Outcome.raised e)
  | Except.ok _ =>
    match env.importResult with
    | Except.error e => (importEvents env, Outcome.raised e)
    | Except.ok objects =>
      let mesh_objects := meshObjects objects
      if mesh_objects = [] then
        (importEvents env ++ [Event.printMsg noMeshErrorMsg], Outcome.exited 1)
      else
        let total_verts_before := totalVerts mesh_objects
        match (decimateLoop env mesh_objects).2 with
        | Except.error e =>
          (foundEvents env objects ++ (decimateLoop env mesh_objects).1, Outcome.raised e)
        | Except.ok decimated =>
          let total_verts_after := totalVerts decimated
          if total_verts_before = 0 then
            (foundEvents env objects ++ (decimateLoop env mesh_objects).1,
             Outcome.raised "ZeroDivisionError")
          else
            let reduction :=
              (1 - (total_verts_after : ℚ) / (total_verts_before : ℚ)) * 100
            let evsR :=
              foundEvents env objects ++ (decimateLoop env mesh_objects).1 ++
              [Event.printTotal total_verts_before total_verts_after reduction] ++
              decimated.map (fun o => Event.selectSet o.name true) ++
              [Event.printExporting (outputFile env), Event.exportGltf (exportCfg env)]
            match env.exportResult with
            | Except.error e => (evsR, Outcome.raised e)
            | Except.ok _ =>
              if env.outputExists then
                (evsR ++ [Event.printMsg "[Decimate] DONE!", Event.printSize (sizeMB env)],
                 Outcome.finished)
              else
                (evsR ++ [Event.printMsg "[Decimate] DONE!", Event.printMsg noOutputErrorMsg],
                 Outcome.exited 1)

/-- The event trace of one run. -/
def mainEvents (env : HostEnv) : List Event := (decimateMain env).1

/-- The process outcome of one run. -/
def mainOutcome (env : HostEnv) : Outcome := (decimateMain env).2

/-- A run in which import succeeded but produced no mesh objects. -/
def emptySceneRun (env : HostEnv) : Prop :=
  env.readFactoryResult = Except.ok () ∧
  ∃ objs, env.importResult = Except.ok objs ∧ meshObjects objs = []

/-- A run in which everything up to and including the export succeeded but
the output file does not exist afterwards. -/
def missingOutputRun (env : HostEnv) : Prop :=
  env.readFactoryResult = Except.ok () ∧
  ∃ objs, env.importResult = Except.ok objs ∧ meshObjects objs ≠ [] ∧
    (∃ d, (decimateLoop env (meshObjects objs)).2 = Except.ok d) ∧
    totalVerts (meshObjects objs) ≠ 0 ∧
    env.exportResult = Except.ok () ∧
    env.outputExists = false

/-- A fully successful run: every host call succeeds, the scene has meshes,
the vertex total is positive, and the output file exists after export. -/
def successRun (env : HostEnv) : Prop :=
  env.readFactoryResult = Except.ok () ∧
  ∃ objs, env.importResult = Except.ok objs ∧ meshObjects objs ≠ [] ∧
    (∃ d, (decimateLoop env (meshObjects objs)).2 = Except.ok d) ∧
    totalVerts (meshObjects objs) ≠ 0 ∧
    env.exportResult = Except.ok () ∧
    env.outputExists = true

/-- The selection events emitted just before the export, one per object. -/
def selectEvents (l : List SceneObject) : List Event :=
  l.map fun o => Event.selectSet o.name true

/-- The reduction percentage main computes from the two vertex totals. -/
def reductionPct (objs : List SceneObject) : ℚ :=
  (1 - (totalVerts (decimatedMeshes (meshObjects objs)) : ℚ) /
    (totalVerts (meshObjects objs) : ℚ)) * 100

/-- The full event trace of a run that has reached the export call, up to
and including the export event itself. -/
def preExportEvents (env : HostEnv) (objs : List SceneObject) : List Event :=
  foundEvents env objs ++ eventsOfMeshes (meshObjects objs) ++
  [Event.printTotal (totalVerts (meshObjects objs))
    (totalVerts (decimatedMeshes (meshObjects objs))) (reductionPct objs)] ++
  selectEvents (meshObjects objs) ++
  [Event.printExporting (outputFile env), Event.exportGltf (exportCfg env)]

/-- Decision procedure for the modifier-related events: attaching the
decimate modifier and applying a modifier. -/
def isModifierEvent : Event → Bool
  | Event.addDecimateModifier _ _ => true
  | Event.applyModifier _ _ => true
  | _ => false

/-- Decision procedure for export events. -/
def isExportEvent : Event → Bool
  | Event.exportGltf _ => true
  | _ => false

/-- The modifier events the loop emits: per mesh, one attach of the fully
configured decimate modifier followed by one application of it. -/
def modifierEvents (l : List SceneObject) : List Event :=
  l.foldr (fun o acc =>
    [Event.addDecimateModifier o.name decimateCfg,
     Event.applyModifier o.name "Decimate"] ++ acc) []

/-- The file-system write target of an event, if any: only the export
writes a file. -/
def eventWrites : Event → Option String
  | Event.exportGltf cfg => some cfg.filepath
  | _ => none

/-- Scene of the sample successful run: one mesh and one camera. -/
def objsOk : List SceneObject :=
  [{ name := "Shell", type := "MESH", verts := 100 },
   { name := "Cam", type := "CAMERA", verts := 0 }]

/-- Sample environment: a successful run over one mesh of 100 vertices. -/
def envOk : HostEnv :=
  { scriptAbsPath := "/proj/scripts/decimate_beetle.py"
    readFactoryResult := Except.ok ()
    importResult := Except.ok objsOk
    applyModifierResult := fun _ => Except.ok ()
    exportResult := Except.ok ()
    outputExists := true
    outputSizeBytes := 2097152 }

/-- Scene with no meshes at all. -/
def objsEmpty : List SceneObject :=
  [{ name := "Cam", type := "CAMERA", verts := 0 }]

/-- Environment whose import yields a scene without meshes. -/
def envEmpty : HostEnv :=
  { envOk with importResult := Except.ok objsEmpty }

/-- Scene with a single mesh that has zero vertices. -/
def objsZero : List SceneObject :=
  [{ name := "Shell", type := "MESH", verts := 0 }]

/-- Environment whose import yields one mesh with zero vertices. -/
def envZero : HostEnv :=
  { envOk with importResult := Except.ok objsZero }

/-- Environment like the successful one but whose output file is missing
after the export. -/
def envNoOut : HostEnv :=
  { envOk with outputExists := false }

/-- Environment whose very first host call raises. -/
def envRfErr : HostEnv :=
  { envOk with readFactoryResult := Except.error "boom" }

example : mainOutcome envOk = Outcome.finished := by decide
example : decimateVerts 100 = 2 := by decide
example : inputFile envOk = "/proj/public/assets/models/beetle_shell.glb" := by decide
example : outputFile envOk = "/proj/public/assets/models/beetle_shell_optimized.glb" := by decide
example : mainOutcome envEmpty = Outcome.exited 1 := by decide
example : mainOutcome envZero = Outcome.raised "ZeroDivisionError" := by decide
example : mainOutcome envNoOut = Outcome.exited 1 := by decide
example : mainOutcome envRfErr = Outcome.raised "boom" := by decide

/-! Helper lemmas about the loop and the branch structure of main. -/

lemma eventsOfMeshes_nil : eventsOfMeshes [] = [] := rfl

lemma eventsOfMeshes_cons (o : SceneObject) (l : List SceneObject) :
    eventsOfMeshes (o :: l) = perMeshEvents o ++ eventsOfMeshes l := rfl

lemma decimateLoop_ok (env : HostEnv) (l : List SceneObject)
    (h : ∀ o ∈ l, env.applyModifierResult o = Except.ok ()) :
    decimateLoop env l = (eventsOfMeshes l, Except.ok (decimatedMeshes l)) := by
  induction l with
  | nil => rfl
  | cons o rest ih =>
    have ho : env.applyModifierResult o = Except.ok () := h o (List.mem_cons_self o rest)
    have hrest : ∀ x ∈ rest, env.applyModifierResult x = Except.ok () :=
      fun x hx => h x (List.mem_cons_of_mem o hx)
    simp [decimateLoop, ho, ih hrest, eventsOfMeshes_cons, perMeshEvents, decimatedMeshes,
      Except.map]

lemma decimateLoop_ok_inv (env : HostEnv) (l : List SceneObject) (d : List SceneObject)
    (h : (decimateLoop env l).2 = Except.ok d) :
    (∀ o ∈ l, env.applyModifierResult o = Except.ok ()) ∧ d = decimatedMeshes l := by
  induction l generalizing d with
  | nil =>
    simp [decimateLoop] at h
    subst h
    simp [decimatedMeshes]
  | cons o rest ih =>
    rcases ha : env.applyModifierResult o with e | u
    · simp [decimateLoop, ha] at h
    · cases u
      rcases hrest : (decimateLoop env rest).2 with e2 | d2
      · simp [decimateLoop, ha, hrest, Except.map] at h
      · have hih := ih d2 hrest
        simp [decimateLoop, ha, hrest, Except.map] at h
        refine ⟨?_, ?_⟩
        · intro x hx
          rcases List.mem_cons.mp hx with hx | hx
          · rw [hx]; exact ha
          · exact hih.1 x hx
        · subst h
          simp [decimatedMeshes, hih.2]

lemma decimateLoop_error (env : HostEnv) (l1 : List SceneObject) (obj : SceneObject)
    (l2 : List SceneObject) (e : String)
    (h1 : ∀ o ∈ l1, env.applyModifierResult o = Except.ok ())
    (he : env.applyModifierResult obj = Except.error e) :
    (decimateLoop env (l1 ++ obj :: l2)).2 = Except.error e := by
  induction l1 with
  | nil => simp [decimateLoop, he]
  | cons x rest ih =>
    have hx : env.applyModifierResult x = Except.ok () := h1 x (List.mem_cons_self x rest)
    have hrest : ∀ o ∈ rest, env.applyModifierResult o = Except.ok () :=
      fun o ho => h1 o (List.mem_cons_of_mem x ho)
    have hr := ih hrest
    simp [List.cons_append, decimateLoop, hx, hr, Except.map]

lemma decimateLoop_events_subset (env : HostEnv) (l : List SceneObject) :
    ∀ x ∈ (decimateLoop env l).1, x ∈ eventsOfMeshes l := by
  induction l with
  | nil => simp [decimateLoop]
  | cons o rest ih =>
    intro x hx
    rcases ha : env.applyModifierResult o with e | u
    · simp [decimateLoop, ha] at hx
      rw [eventsOfMeshes_cons]
      rcases hx with hx | hx | hx | hx | hx <;> simp [perMeshEvents, hx]
    · cases u
      simp [decimateLoop, ha] at hx
      rw [eventsOfMeshes_cons]
      rcases hx with hx | hx | hx | hx | hx | hx | hx | hx
      · simp [perMeshEvents, hx]
      · simp [perMeshEvents, hx]
      · simp [perMeshEvents, hx]
      · simp [perMeshEvents, hx]
      · simp [perMeshEvents, hx]
      · simp [perMeshEvents, hx]
      · simp [perMeshEvents, hx]
      · exact List.mem_append_right _ (ih x hx)

lemma select_map_decimated (l : List SceneObject) :
    (decimatedMeshes l).map (fun o => Event.selectSet o.name true) =
    l.map fun o => Event.selectSet o.name true := by
  rw [decimatedMeshes, List.map_map]
  rfl

lemma main_rfError (env : HostEnv) (e : String)
    (hr : env.readFactoryResult = Except.error e) :
    decimateMain env = (headerEvents env, Outcome.raised e) := by
  simp [decimateMain, hr]

lemma main_importError (env : HostEnv) (e : String)
    (hr : env.readFactoryResult = Except.ok ())
    (hi : env.importResult = Except.error e) :
    decimateMain env = (importEvents env, Outcome.raised e) := by
  simp [decimateMain, hr, hi]

lemma main_emptyScene (env : HostEnv) (objs : List SceneObject)
    (hr : env.readFactoryResult = Except.ok ())
    (hi : env.importResult = Except.ok objs)
    (hm : meshObjects objs = []) :
    decimateMain env =
      (importEvents env ++ [Event.printMsg noMeshErrorMsg], Outcome.exited 1) := by
  simp [decimateMain, hr, hi, hm]

lemma main_loopError (env : HostEnv) (objs : List SceneObject) (e : String)
    (hr : env.readFactoryResult = Except.ok ())
    (hi : env.importResult = Except.ok objs)
    (hm : meshObjects objs ≠ [])
    (hl : (decimateLoop env (meshObjects objs)).2 = Except.error e) :
    decimateMain env =
      (foundEvents env objs ++ (decimateLoop env (meshObjects objs)).1,
       Outcome.raised e) := by
  simp [decimateMain, hr, hi, hm, hl]

lemma main_zeroDiv (env : HostEnv) (objs : List SceneObject)
    (hr : env.readFactoryResult = Except.ok ())
    (hi : env.importResult = Except.ok objs)
    (hm : meshObjects objs ≠ [])
    (ha : ∀ o ∈ meshObjects objs, env.applyModifierResult o = Except.ok ())
    (h0 : totalVerts (meshObjects objs) = 0) :
    decimateMain env =
      (foundEvents env objs ++ eventsOfMeshes (meshObjects objs),
       Outcome.raised "ZeroDivisionError") := by
  simp [decimateMain, hr, hi, hm, decimateLoop_ok env _ ha, h0]

lemma main_exportError (env : HostEnv) (objs : List SceneObject) (e : String)
    (hr : env.readFactoryResult = Except.ok ())
    (hi : env.importResult = Except.ok objs)
    (hm : meshObjects objs ≠ [])
    (ha : ∀ o ∈ meshObjects objs, env.applyModifierResult o = Except.ok ())
    (h0 : totalVerts (meshObjects objs) ≠ 0)
    (hx : env.exportResult = Except.error e) :
    decimateMain env = (preExportEvents env objs, Outcome.raised e) := by
  simp [decimateMain, hr, hi, hm, decimateLoop_ok env _ ha, h0, hx,
    preExportEvents, reductionPct, selectEvents, select_map_decimated]

lemma main_success (env : HostEnv) (objs : List SceneObject)
    (hr : env.readFactoryResult = Except.ok ())
    (hi : env.importResult = Except.ok objs)
    (hm : meshObjects objs ≠ [])
    (ha : ∀ o ∈ meshObjects objs, env.applyModifierResult o = Except.ok ())
    (h0 : totalVerts (meshObjects objs) ≠ 0)
    (hx : env.exportResult = Except.ok ())
    (ho : env.outputExists = true) :
    decimateMain env =
      (preExportEvents env objs ++
        [Event.printMsg "[Decimate] DONE!", Event.printSize (sizeMB env)],
       Outcome.finished) := by
  simp [decimateMain, hr, hi, hm, decimateLoop_ok env _ ha, h0, hx, ho,
    preExportEvents, reductionPct, selectEvents, select_map_decimated]

lemma main_noOutput (env : HostEnv) (objs : List SceneObject)
    (hr : env.readFactoryResult = Except.ok ())
    (hi : env.importResult = Except.ok objs)
    (hm : meshObjects objs ≠ [])
    (ha : ∀ o ∈ meshObjects objs, env.applyModifierResult o = Except.ok ())
    (h0 : totalVerts (meshObjects objs) ≠ 0)
    (hx : env.exportResult = Except.ok ())
    (ho : env.outputExists = false) :
    decimateMain env =
      (preExportEvents env objs ++
        [Event.printMsg "[Decimate] DONE!", Event.printMsg noOutputErrorMsg],
       Outcome.exited 1) := by
  simp [decimateMain, hr, hi, hm, decimateLoop_ok env _ ha, h0, hx, ho,
    preExportEvents, reductionPct, selectEvents, select_map_decimated]

lemma mem_eventsOfMeshes (x : Event) (l : List SceneObject)
    (h : x ∈ eventsOfMeshes l) : ∃ o ∈ l, x ∈ perMeshEvents o := by
  induction l with
  | nil => simp [eventsOfMeshes] at h
  | cons o rest ih =>
    rw [eventsOfMeshes_cons] at h
    rcases List.mem_append.mp h with h | h
    · exact ⟨o, List.mem_cons_self o rest, h⟩
    · obtain ⟨o2, ho2, hx⟩ := ih h
      exact ⟨o2, List.mem_cons_of_mem o ho2, hx⟩

lemma not_importGltf_mem_eventsOfMeshes (l : List SceneObject) (p : String) :
    Event.importGltf p ∉ eventsOfMeshes l := by
  intro h
  obtain ⟨o, _, hm⟩ := mem_eventsOfMeshes _ _ h
  simp [perMeshEvents] at hm

lemma not_exportGltf_mem_eventsOfMeshes (l : List SceneObject) (cfg : ExportConfig) :
    Event.exportGltf cfg ∉ eventsOfMeshes l := by
  intro h
  obtain ⟨o, _, hm⟩ := mem_eventsOfMeshes _ _ h
  simp [perMeshEvents] at hm

lemma not_printTotal_mem_eventsOfMeshes (l : List SceneObject) (b a : Nat) (r : ℚ) :
    Event.printTotal b a r ∉ eventsOfMeshes l := by
  intro h
  obtain ⟨o, _, hm⟩ := mem_eventsOfMeshes _ _ h
  simp [perMeshEvents] at hm

lemma mainEvents_cases (env : HostEnv) :
    mainEvents env = headerEvents env ∨
    mainEvents env = importEvents env ∨
    mainEvents env = importEvents env ++ [Event.printMsg noMeshErrorMsg] ∨
    (∃ objs, env.importResult = Except.ok objs ∧
      mainEvents env = foundEvents env objs ++ (decimateLoop env (meshObjects objs)).1) ∨
    (∃ objs tail, env.importResult = Except.ok objs ∧
      (tail = [] ∨
       tail = [Event.printMsg "[Decimate] DONE!", Event.printSize (sizeMB env)] ∨
       tail = [Event.printMsg "[Decimate] DONE!", Event.printMsg noOutputErrorMsg]) ∧
      mainEvents env = preExportEvents env objs ++ tail) := by
  rcases hr : env.readFactoryResult with e | u
  · exact Or.inl (by rw [mainEvents, main_rfError env e hr])
  · cases u
    rcases hi : env.importResult with e | objs
    · exact Or.inr (Or.inl (by rw [mainEvents, main_importError env e hr hi]))
    · by_cases hm : meshObjects objs = []
      · exact Or.inr (Or.inr (Or.inl (by rw [mainEvents, main_emptyScene env objs hr hi hm])))
      · rcases hl : (decimateLoop env (meshObjects objs)).2 with e | d
        · exact Or.inr (Or.inr (Or.inr (Or.inl
            ⟨objs, rfl, by rw [mainEvents, main_loopError env objs e hr hi hm hl]⟩)))
        · obtain ⟨ha, hd⟩ := decimateLoop_ok_inv env _ d hl
          by_cases h0 : totalVerts (meshObjects objs) = 0
          · refine Or.inr (Or.inr (Or.inr (Or.inl ⟨objs, rfl, ?_⟩)))
            rw [mainEvents, main_zeroDiv env objs hr hi hm ha h0,
              decimateLoop_ok env _ ha]
          · rcases hx : env.exportResult with e | u
            · exact Or.inr (Or.inr (Or.inr (Or.inr ⟨objs, [], rfl, Or.inl rfl,
                by rw [mainEvents, main_exportError env objs e hr hi hm ha h0 hx]; simp⟩)))
            · cases u
              rcases ho : env.outputExists with _ | _
              · exact Or.inr (Or.inr (Or.inr (Or.inr ⟨objs,
                  [Event.printMsg "[Decimate] DONE!", Event.printMsg noOutputErrorMsg],
                  rfl, Or.inr (Or.inr rfl),
                  by rw [mainEvents, main_noOutput env objs hr hi hm ha h0 hx ho]⟩)))
              · exact Or.inr (Or.inr (Or.inr (Or.inr ⟨objs,
                  [Event.printMsg "[Decimate] DONE!", Event.printSize (sizeMB env)],
                  rfl, Or.inr (Or.inl rfl),
                  by rw [mainEvents, main_success env objs hr hi hm ha h0 hx ho]⟩)))

lemma importGltf_mem (env : HostEnv) (p : String)
    (h : Event.importGltf p ∈ mainEvents env) : p = inputFile env := by
  rcases mainEvents_cases env with hc | hc | hc | ⟨objs, hi, hc⟩ | ⟨objs, tail, hi, ht, hc⟩
  · rw [hc] at h; simp [headerEvents] at h
  · rw [hc] at h; simp [importEvents, headerEvents] at h; exact h
  · rw [hc] at h; simp [importEvents, headerEvents] at h; exact h
  · rw [hc] at h
    rcases List.mem_append.mp h with h | h
    · simp [foundEvents, importEvents, headerEvents] at h; exact h
    · exact absurd (decimateLoop_events_subset env _ _ h)
        (not_importGltf_mem_eventsOfMeshes _ _)
  · rw [hc] at h
    rcases List.mem_append.mp h with h | h
    · simp [preExportEvents, foundEvents, importEvents, headerEvents, selectEvents,
        not_importGltf_mem_eventsOfMeshes] at h
      exact h
    · rcases ht with ht | ht | ht <;> (rw [ht] at h; simp at h)

lemma exportGltf_mem (env : HostEnv) (cfg : ExportConfig)
    (h : Event.exportGltf cfg ∈ mainEvents env) : cfg = exportCfg env := by
  rcases mainEvents_cases env with hc | hc | hc | ⟨objs, hi, hc⟩ | ⟨objs, tail, hi, ht, hc⟩
  · rw [hc] at h; simp [headerEvents] at h
  · rw [hc] at h; simp [importEvents, headerEvents] at h
  · rw [hc] at h; simp [importEvents, headerEvents] at h
  · rw [hc] at h
    rcases List.mem_append.mp h with h | h
    · simp [foundEvents, importEvents, headerEvents] at h
    · exact absurd (decimateLoop_events_subset env _ _ h)
        (not_exportGltf_mem_eventsOfMeshes _ _)
  · rw [hc] at h
    rcases List.mem_append.mp h with h | h
    · simp [preExportEvents, foundEvents, importEvents, headerEvents, selectEvents,
        not_exportGltf_mem_eventsOfMeshes] at h
      exact h
    · rcases ht with ht | ht | ht <;> (rw [ht] at h; simp at h)

lemma printTotal_mem (env : HostEnv) (b a : Nat) (r : ℚ)
    (h : Event.printTotal b a r ∈ mainEvents env) :
    ∃ objs, env.importResult = Except.ok objs ∧
      b = totalVerts (meshObjects objs) ∧
      a = totalVerts (decimatedMeshes (meshObjects objs)) ∧
      r = reductionPct objs := by
  rcases mainEvents_cases env with hc | hc | hc | ⟨objs, hi, hc⟩ | ⟨objs, tail, hi, ht, hc⟩
  · rw [hc] at h; simp [headerEvents] at h
  · rw [hc] at h; simp [importEvents, headerEvents] at h
  · rw [hc] at h; simp [importEvents, headerEvents] at h
  · rw [hc] at h
    rcases List.mem_append.mp h with h | h
    · simp [foundEvents, importEvents, headerEvents] at h
    · exact absurd (decimateLoop_events_subset env _ _ h)
        (not_printTotal_mem_eventsOfMeshes _ _ _ _)
  · rw [hc] at h
    rcases List.mem_append.mp h with h | h
    · simp [preExportEvents, foundEvents, importEvents, headerEvents, selectEvents,
        not_printTotal_mem_eventsOfMeshes] at h
      exact ⟨objs, hi, h.1, h.2.1, h.2.2⟩
    · rcases ht with ht | ht | ht <;> (rw [ht] at h; simp at h)

lemma decimateVerts_le (n : Nat) : decimateVerts n ≤ n := by
  rw [decimateVerts]
  omega

lemma joinPath_eval (a b : String) (hb : ¬ b.data.head? = some '/') :
    joinPath a b =
      if a.data = [] ∨ a.data.getLast? = some '/' then a ++ b else a ++ "/" ++ b := by
  rw [joinPath, if_neg hb]

lemma outputFile_ne_inputFile (env : HostEnv) : outputFile env ≠ inputFile env := by
  intro h
  rw [outputFile, inputFile, joinPath_eval _ _ (by decide), joinPath_eval _ _ (by decide)] at h
  by_cases hA : (projectRoot env).data = [] ∨ (projectRoot env).data.getLast? = some '/'
  · rw [if_pos hA, if_pos hA, String.ext_iff] at h
    simp only [String.data_append] at h
    rw [List.append_right_inj] at h
    exact absurd h (by decide)
  · rw [if_neg hA, if_neg hA, String.ext_iff] at h
    simp only [String.data_append] at h
    rw [List.append_right_inj] at h
    exact absurd h (by decide)

/-! Outcome classification lemmas used by the exit-code theorem. -/

lemma finished_iff_successRun (env : HostEnv) :
    mainOutcome env = Outcome.finished ↔ successRun env := by
  constructor
  · intro hf
    rcases hr : env.readFactoryResult with e | u
    · rw [mainOutcome, main_rfError env e hr] at hf; simp at hf
    · cases u
      rcases hi : env.importResult with e | objs
      · rw [mainOutcome, main_importError env e hr hi] at hf; simp at hf
      · by_cases hm : meshObjects objs = []
        · rw [mainOutcome, main_emptyScene env objs hr hi hm] at hf; simp at hf
        · rcases hl : (decimateLoop env (meshObjects objs)).2 with e | d
          · rw [mainOutcome, main_loopError env objs e hr hi hm hl] at hf; simp at hf
          · obtain ⟨ha, hd⟩ := decimateLoop_ok_inv env _ d hl
            by_cases h0 : totalVerts (meshObjects objs) = 0
            · rw [mainOutcome, main_zeroDiv env objs hr hi hm ha h0] at hf; simp at hf
            · rcases hx : env.exportResult with e | u
              · rw [mainOutcome, main_exportError env objs e hr hi hm ha h0 hx] at hf
                simp at hf
              · cases u
                rcases hoe : env.outputExists with _ | _
                · rw [mainOutcome, main_noOutput env objs hr hi hm ha h0 hx hoe] at hf
                  simp at hf
                · exact ⟨hr, objs, hi, hm, ⟨d, hl⟩, h0, hx, hoe⟩
  · rintro ⟨hr, objs, hi, hm, ⟨d, hl⟩, h0, hx, hoe⟩
    obtain ⟨ha, -⟩ := decimateLoop_ok_inv env _ d hl
    rw [mainOutcome, main_success env objs hr hi hm ha h0 hx hoe]

lemma exited_code_eq_one (env : HostEnv) (c : Nat)
    (h : mainOutcome env = Outcome.exited c) : c = 1 := by
  rcases hr : env.readFactoryResult with e | u
  · rw [mainOutcome, main_rfError env e hr] at h; simp at h
  · cases u
    rcases hi : env.importResult with e | objs
    · rw [mainOutcome, main_importError env e hr hi] at h; simp at h
    · by_cases hm : meshObjects objs = []
      · rw [mainOutcome, main_emptyScene env objs hr hi hm] at h
        simp at h
        omega
      · rcases hl : (decimateLoop env (meshObjects objs)).2 with e | d
        · rw [mainOutcome, main_loopError env objs e hr hi hm hl] at h; simp at h
        · obtain ⟨ha, hd⟩ := decimateLoop_ok_inv env _ d hl
          by_cases h0 : totalVerts (meshObjects objs) = 0
          · rw [mainOutcome, main_zeroDiv env objs hr hi hm ha h0] at h; simp at h
          · rcases hx : env.exportResult with e | u
            · rw [mainOutcome, main_exportError env objs e hr hi hm ha h0 hx] at h
              simp at h
            · cases u
              rcases hoe : env.outputExists with _ | _
              · rw [mainOutcome, main_noOutput env objs hr hi hm ha h0 hx hoe] at h
                simp at h
                omega
              · rw [mainOutcome, main_success env objs hr hi hm ha h0 hx hoe] at h
                simp at h

lemma exited_one_iff (env : HostEnv) :
    mainOutcome env = Outcome.exited 1 ↔ emptySceneRun env ∨ missingOutputRun env := by
  constructor
  · intro h
    rcases hr : env.readFactoryResult with e | u
    · rw [mainOutcome, main_rfError env e hr] at h; simp at h
    · cases u
      rcases hi : env.importResult with e | objs
      · rw [mainOutcome, main_importError env e hr hi] at h; simp at h
      · by_cases hm : meshObjects objs = []
        · exact Or.inl ⟨hr, objs, hi, hm⟩
        · rcases hl : (decimateLoop env (meshObjects objs)).2 with e | d
          · rw [mainOutcome, main_loopError env objs e hr hi hm hl] at h; simp at h
          · obtain ⟨ha, hd⟩ := decimateLoop_ok_inv env _ d hl
            by_cases h0 : totalVerts (meshObjects objs) = 0
            · rw [mainOutcome, main_zeroDiv env objs hr hi hm ha h0] at h; simp at h
            · rcases hx : env.exportResult with e | u
              · rw [mainOutcome, main_exportError env objs e hr hi hm ha h0 hx] at h
                simp at h
              · cases u
                rcases hoe : env.outputExists with _ | _
                · exact Or.inr ⟨hr, objs, hi, hm, ⟨d, hl⟩, h0, hx, hoe⟩
                · rw [mainOutcome, main_success env objs hr hi hm ha h0 hx hoe] at h
                  simp at h
  · rintro (⟨hr, objs, hi, hm⟩ | ⟨hr, objs, hi, hm, ⟨d, hl⟩, h0, hx, hoe⟩)
    · rw [mainOutcome, main_emptyScene env objs hr hi hm]
    · obtain ⟨ha, -⟩ := decimateLoop_ok_inv env _ d hl
      rw [mainOutcome, main_noOutput env objs hr hi hm ha h0 hx hoe]

lemma exited_one_error_printed (env : HostEnv)
    (h : mainOutcome env = Outcome.exited 1) :
    (∃ pre, mainEvents env = pre ++ [Event.printMsg noMeshErrorMsg]) ∨
    (∃ pre, mainEvents env = pre ++ [Event.printMsg noOutputErrorMsg]) := by
  rcases (exited_one_iff env).mp h with ⟨hr, objs, hi, hm⟩ |
    ⟨hr, objs, hi, hm, ⟨d, hl⟩, h0, hx, hoe⟩
  · exact Or.inl ⟨importEvents env, by rw [mainEvents, main_emptyScene env objs hr hi hm]⟩
  · obtain ⟨ha, -⟩ := decimateLoop_ok_inv env _ d hl
    refine Or.inr ⟨preExportEvents env objs ++ [Event.printMsg "[Decimate] DONE!"], ?_⟩
    rw [mainEvents, main_noOutput env objs hr hi hm ha h0 hx hoe]
    simp

/-- C1: every run terminates with exit code 0 exactly on success, a sys.exit
always carries code 1, exit code 1 happens exactly when the imported scene
has no meshes or the output file is missing after export, and in both
failure cases the printed error message is the last event before exit. -/
theorem exit_code_spec (env : HostEnv) :
    (mainOutcome env = Outcome.finished ↔ successRun env) ∧
    (∀ c, mainOutcome env = Outcome.exited c → c = 1) ∧
    (mainOutcome env = Outcome.exited 1 ↔ emptySceneRun env ∨ missingOutputRun env) ∧
    (mainOutcome env = Outcome.exited 1 →
      (∃ pre, mainEvents env = pre ++ [Event.printMsg noMeshErrorMsg]) ∨
      (∃ pre, mainEvents env = pre ++ [Event.printMsg noOutputErrorMsg])) :=
  ⟨finished_iff_successRun env, exited_code_eq_one env, exited_one_iff env,
    exited_one_error_printed env⟩

/-- C1 witness: on the concrete no-output environment the theorem yields exit
code 1, and on the concrete successful environment it yields a normal finish. -/
theorem exit_code_spec_witness :
    mainOutcome envNoOut = Outcome.exited 1 ∧ mainOutcome envOk = Outcome.finished :=
  ⟨(exit_code_spec envNoOut).2.2.1.mpr
      (Or.inr ⟨rfl, objsOk, rfl, by decide,
        ⟨decimatedMeshes (meshObjects objsOk), rfl⟩, by decide, rfl, rfl⟩),
   (exit_code_spec envOk).1.mpr
      ⟨rfl, objsOk, rfl, by decide,
        ⟨decimatedMeshes (meshObjects objsOk), rfl⟩, by decide, rfl, rfl⟩⟩

/-- C5: a run whose imported scene contains zero mesh objects exits with
code 1 and its trace contains no export call at all. -/
theorem empty_scene_no_export (env : HostEnv) (objs : List SceneObject)
    (hr : env.readFactoryResult = Except.ok ())
    (hi : env.importResult = Except.ok objs)
    (hm : meshObjects objs = []) :
    mainOutcome env = Outcome.exited 1 ∧
    ∀ cfg, Event.exportGltf cfg ∉ mainEvents env := by
  have h := main_emptyScene env objs hr hi hm
  constructor
  · rw [mainOutcome, h]
  · intro cfg hmem
    rw [mainEvents, h] at hmem
    simp [importEvents, headerEvents] at hmem

/-- C5 witness: the concrete camera-only scene exits 1 with no export. -/
theorem empty_scene_no_export_witness :
    mainOutcome envEmpty = Outcome.exited 1 ∧
    ∀ cfg, Event.exportGltf cfg ∉ mainEvents envEmpty :=
  empty_scene_no_export envEmpty objsEmpty rfl rfl (by decide)

/-- C9: when the scene has meshes but their vertex total is zero, the
unguarded division raises ZeroDivisionError, and the run neither exits with
a code nor finishes normally. -/
theorem zero_total_division_raises (env : HostEnv) (objs : List SceneObject)
    (hr : env.readFactoryResult = Except.ok ())
    (hi : env.importResult = Except.ok objs)
    (hm : meshObjects objs ≠ [])
    (ha : ∀ o ∈ meshObjects objs, env.applyModifierResult o = Except.ok ())
    (h0 : totalVerts (meshObjects objs) = 0) :
    mainOutcome env = Outcome.raised "ZeroDivisionError" ∧
    (∀ c, mainOutcome env ≠ Outcome.exited c) ∧
    mainOutcome env ≠ Outcome.finished := by
  have h := main_zeroDiv env objs hr hi hm ha h0
  refine ⟨by rw [mainOutcome, h], ?_, by rw [mainOutcome, h]; simp⟩
  intro c
  rw [mainOutcome, h]
  simp

/-- C9 witness: one mesh with zero vertices raises ZeroDivisionError. -/
theorem zero_total_division_raises_witness :
    mainOutcome envZero = Outcome.raised "ZeroDivisionError" ∧
    (∀ c, mainOutcome envZero ≠ Outcome.exited c) ∧
    mainOutcome envZero ≠ Outcome.finished :=
  zero_total_division_raises envZero objsZero rfl rfl (by decide)
    (fun _ _ => rfl) (by decide)

/-- C8: host errors propagate unhandled out of main: a failing factory
reset, import, modifier application, or export makes the whole run end with
exactly that raised error, with no recovery and no exit code. -/
theorem host_errors_propagate (env : HostEnv) (e : String) :
    (env.readFactoryResult = Except.error e → mainOutcome env = Outcome.raised e) ∧
    (env.readFactoryResult = Except.ok () → env.importResult = Except.error e →
      mainOutcome env = Outcome.raised e) ∧
    (∀ objs l1 obj l2,
      env.readFactoryResult = Except.ok () → env.importResult = Except.ok objs →
      meshObjects objs = l1 ++ obj :: l2 →
      (∀ o ∈ l1, env.applyModifierResult o = Except.ok ()) →
      env.applyModifierResult obj = Except.error e →
      mainOutcome env = Outcome.raised e) ∧
    (∀ objs,
      env.readFactoryResult = Except.ok () → env.importResult = Except.ok objs →
      meshObjects objs ≠ [] →
      (∀ o ∈ meshObjects objs, env.applyModifierResult o = Except.ok ()) →
      totalVerts (meshObjects objs) ≠ 0 →
      env.exportResult = Except.error e →
      mainOutcome env = Outcome.raised e) := by
  refine ⟨?_, ?_, ?_, ?_⟩
  · intro hr
    rw [mainOutcome, main_rfError env e hr]
  · intro hr hi
    rw [mainOutcome, main_importError env e hr hi]
  · intro objs l1 obj l2 hr hi hsplit h1 he
    have hm : meshObjects objs ≠ [] := by
      rw [hsplit]
      simp
    have hl : (decimateLoop env (meshObjects objs)).2 = Except.error e := by
      rw [hsplit]
      exact decimateLoop_error env l1 obj l2 e h1 he
    rw [mainOutcome, main_loopError env objs e hr hi hm hl]
  · intro objs hr hi hm ha h0 hx
    rw [mainOutcome, main_exportError env objs e hr hi hm ha h0 hx]

/-- C8 witness: a failing factory reset propagates its error out of main. -/
theorem host_errors_propagate_witness :
    mainOutcome envRfErr = Outcome.raised "boom" :=
  (host_errors_propagate envRfErr "boom").1 rfl

/-- C4: every import call in a trace uses the INPUT_PATH constant joined to
the project root obtained by taking dirname twice of the absolute script
path, and every export call likewise uses OUTPUT_PATH. -/
theorem paths_resolved_relative (env : HostEnv) :
    (∀ p, Event.importGltf p ∈ mainEvents env →
      p = joinPath (dirname (dirname env.scriptAbsPath)) INPUT_PATH) ∧
    (∀ cfg, Event.exportGltf cfg ∈ mainEvents env →
      cfg.filepath = joinPath (dirname (dirname env.scriptAbsPath)) OUTPUT_PATH) := by
  constructor
  · intro p hp
    rw [importGltf_mem env p hp]
    simp [inputFile, projectRoot]
  · intro cfg hc
    rw [exportGltf_mem env cfg hc]
    simp [exportCfg, outputFile, projectRoot]

/-- C4 witness: in the concrete successful run the imported path is the
input constant joined under the project root of the script path. -/
theorem paths_resolved_relative_witness :
    "/proj/public/assets/models/beetle_shell.glb" =
      joinPath (dirname (dirname envOk.scriptAbsPath)) INPUT_PATH :=
  (paths_resolved_relative envOk).1 _ (by decide)

/-- C10: the only write target in any trace is the output path, which
differs from the input path, so the input file is never written. -/
theorem only_write_is_export (env : HostEnv) (p : String)
    (h : p ∈ (mainEvents env).filterMap eventWrites) :
    p = outputFile env ∧ outputFile env ≠ inputFile env := by
  obtain ⟨e, he, hw⟩ := List.mem_filterMap.mp h
  cases e <;> simp [eventWrites] at hw
  case exportGltf cfg =>
    have hfp := congrArg ExportConfig.filepath (exportGltf_mem env cfg he)
    constructor
    · rw [← hw, hfp]
      simp [exportCfg]
    · exact outputFile_ne_inputFile env

/-- C10 witness: the concrete run writes only to its output path. -/
theorem only_write_is_export_witness :
    outputFile envOk = outputFile envOk ∧ outputFile envOk ≠ inputFile envOk :=
  only_write_is_export envOk (outputFile envOk) (by decide)

/-- C3: any reported total line carries exactly the reduction percentage
(1 - after/before) * 100 computed from the before and after vertex totals
of the meshes, and those totals are the sums over the imported meshes. -/
theorem reported_reduction_correct (env : HostEnv) (b a : Nat) (r : ℚ)
    (h : Event.printTotal b a r ∈ mainEvents env) :
    r = (1 - (a : ℚ) / (b : ℚ)) * 100 ∧
    ∃ objs, env.importResult = Except.ok objs ∧
      b = totalVerts (meshObjects objs) ∧
      a = totalVerts (decimatedMeshes (meshObjects objs)) := by
  obtain ⟨objs, hi, hb, ha2, hr2⟩ := printTotal_mem env b a r h
  refine ⟨?_, objs, hi, hb, ha2⟩
  rw [hr2, reductionPct, hb, ha2]

/-- C3 witness: the concrete run reports a 98 percent reduction from 100 to
2 vertices, matching the formula. -/
theorem reported_reduction_correct_witness :
    (98 : ℚ) = (1 - (2 : ℚ) / (100 : ℚ)) * 100 ∧
    ∃ objs, envOk.importResult = Except.ok objs ∧
      100 = totalVerts (meshObjects objs) ∧
      2 = totalVerts (decimatedMeshes (meshObjects objs)) :=
  reported_reduction_correct envOk 100 2 98 (by
    have h1 : totalVerts (meshObjects objsOk) = 100 := by decide
    have h2 : totalVerts (decimatedMeshes (meshObjects objsOk)) = 2 := by decide
    have h98 : reductionPct objsOk = 98 := by
      rw [reductionPct, h1, h2]
      norm_num
    rw [mainEvents, main_success envOk objsOk rfl rfl (by decide) (fun _ _ => rfl)
      (by decide) rfl rfl, preExportEvents, h1, h2, h98]
    simp)

/-! Filter and block lemmas for the loop trace. -/

lemma filter_mod_eventsOfMeshes (l : List SceneObject) :
    (eventsOfMeshes l).filter isModifierEvent = modifierEvents l := by
  induction l with
  | nil => rfl
  | cons o rest ih =>
    rw [eventsOfMeshes_cons, List.filter_append, ih]
    simp [perMeshEvents, isModifierEvent, modifierEvents]

lemma filter_mod_selectEvents (l : List SceneObject) :
    (selectEvents l).filter isModifierEvent = [] := by
  induction l with
  | nil => rfl
  | cons o rest ih =>
    simp [selectEvents, isModifierEvent]

lemma filter_export_eventsOfMeshes (l : List SceneObject) :
    (eventsOfMeshes l).filter isExportEvent = [] := by
  induction l with
  | nil => rfl
  | cons o rest ih =>
    rw [eventsOfMeshes_cons, List.filter_append, ih]
    simp [perMeshEvents, isExportEvent]

lemma filter_export_selectEvents (l : List SceneObject) :
    (selectEvents l).filter isExportEvent = [] := by
  induction l with
  | nil => rfl
  | cons o rest ih =>
    simp [selectEvents, isExportEvent]

lemma eventsOfMeshes_block (obj : SceneObject) (l : List SceneObject) (h : obj ∈ l) :
    ∃ p q, eventsOfMeshes l = p ++ perMeshEvents obj ++ q := by
  induction l with
  | nil => simp at h
  | cons x rest ih =>
    rcases List.mem_cons.mp h with h | h
    · subst h
      exact ⟨[], eventsOfMeshes rest, by rw [eventsOfMeshes_cons]; simp⟩
    · obtain ⟨p, q, hpq⟩ := ih h
      exact ⟨perMeshEvents x ++ p, q,
        by rw [eventsOfMeshes_cons, hpq]; simp [List.append_assoc]⟩

lemma mainEvents_loop_prefix (env : HostEnv) (objs : List SceneObject)
    (hr : env.readFactoryResult = Except.ok ())
    (hi : env.importResult = Except.ok objs)
    (hm : meshObjects objs ≠ [])
    (ha : ∀ o ∈ meshObjects objs, env.applyModifierResult o = Except.ok ()) :
    ∃ tail, mainEvents env =
      foundEvents env objs ++ eventsOfMeshes (meshObjects objs) ++ tail := by
  by_cases h0 : totalVerts (meshObjects objs) = 0
  · exact ⟨[], by rw [mainEvents, main_zeroDiv env objs hr hi hm ha h0]; simp⟩
  · rcases hx : env.exportResult with e | u
    · refine ⟨[Event.printTotal (totalVerts (meshObjects objs))
          (totalVerts (decimatedMeshes (meshObjects objs))) (reductionPct objs)] ++
        selectEvents (meshObjects objs) ++
        [Event.printExporting (outputFile env), Event.exportGltf (exportCfg env)], ?_⟩
      rw [mainEvents, main_exportError env objs e hr hi hm ha h0 hx, preExportEvents]
      simp [List.append_assoc]
    · cases u
      rcases hoe : env.outputExists with _ | _
      · refine ⟨[Event.printTotal (totalVerts (meshObjects objs))
            (totalVerts (decimatedMeshes (meshObjects objs))) (reductionPct objs)] ++
          selectEvents (meshObjects objs) ++
          [Event.printExporting (outputFile env), Event.exportGltf (exportCfg env)] ++
          [Event.printMsg "[Decimate] DONE!", Event.printMsg noOutputErrorMsg], ?_⟩
        rw [mainEvents, main_noOutput env objs hr hi hm ha h0 hx hoe, preExportEvents]
        simp [List.append_assoc]
      · refine ⟨[Event.printTotal (totalVerts (meshObjects objs))
            (totalVerts (decimatedMeshes (meshObjects objs))) (reductionPct objs)] ++
          selectEvents (meshObjects objs) ++
          [Event.printExporting (outputFile env), Event.exportGltf (exportCfg env)] ++
          [Event.printMsg "[Decimate] DONE!", Event.printSize (sizeMB env)], ?_⟩
        rw [mainEvents, main_success env objs hr hi hm ha h0 hx hoe, preExportEvents]
        simp [List.append_assoc]

lemma mainEvents_export_split (env : HostEnv) (objs : List SceneObject)
    (hr : env.readFactoryResult = Except.ok ())
    (hi : env.importResult = Except.ok objs)
    (hm : meshObjects objs ≠ [])
    (ha : ∀ o ∈ meshObjects objs, env.applyModifierResult o = Except.ok ())
    (h0 : totalVerts (meshObjects objs) ≠ 0) :
    ∃ post, mainEvents env =
      (foundEvents env objs ++ eventsOfMeshes (meshObjects objs) ++
       [Event.printTotal (totalVerts (meshObjects objs))
         (totalVerts (decimatedMeshes (meshObjects objs))) (reductionPct objs)] ++
       selectEvents (meshObjects objs) ++ [Event.printExporting (outputFile env)]) ++
      Event.exportGltf (exportCfg env) :: post ∧
      post.filter isModifierEvent = [] ∧ post.filter isExportEvent = [] := by
  rcases hx : env.exportResult with e | u
  · refine ⟨[], ?_, rfl, rfl⟩
    rw [mainEvents, main_exportError env objs e hr hi hm ha h0 hx, preExportEvents]
    simp [List.append_assoc]
  · cases u
    rcases hoe : env.outputExists with _ | _
    · refine ⟨[Event.printMsg "[Decimate] DONE!", Event.printMsg noOutputErrorMsg], ?_,
        by simp [isModifierEvent], by simp [isExportEvent]⟩
      rw [mainEvents, main_noOutput env objs hr hi hm ha h0 hx hoe, preExportEvents]
      simp [List.append_assoc]
    · refine ⟨[Event.printMsg "[Decimate] DONE!", Event.printSize (sizeMB env)], ?_,
        by simp [isModifierEvent], by simp [isExportEvent]⟩
      rw [mainEvents, main_success env objs hr hi hm ha h0 hx hoe, preExportEvents]
      simp [List.append_assoc]

/-- The mesh object of the sample successful environment. -/
def meshShell : SceneObject := { name := "Shell", type := "MESH", verts := 100 }

/-- C6: for every mesh processed by a completing loop, the trace contains
that mesh's loop block, whose logged after count is the decimated count,
and that count never exceeds the logged before count. -/
theorem after_le_before (env : HostEnv) (objs : List SceneObject)
    (hr : env.readFactoryResult = Except.ok ())
    (hi : env.importResult = Except.ok objs)
    (hm : meshObjects objs ≠ [])
    (ha : ∀ o ∈ meshObjects objs, env.applyModifierResult o = Except.ok ()) :
    ∀ obj ∈ meshObjects objs,
      decimateVerts obj.verts ≤ obj.verts ∧
      ∃ pre post, mainEvents env = pre ++ perMeshEvents obj ++ post := by
  intro obj hobj
  refine ⟨decimateVerts_le obj.verts, ?_⟩
  obtain ⟨tail, ht⟩ := mainEvents_loop_prefix env objs hr hi hm ha
  obtain ⟨p, q, hpq⟩ := eventsOfMeshes_block obj _ hobj
  refine ⟨foundEvents env objs ++ p, q ++ tail, ?_⟩
  rw [ht, hpq]
  simp [List.append_assoc]

/-- C6 witness: the sample mesh of 100 vertices is logged before at 100 and
after at its decimated count 2, which is at most 100. -/
theorem after_le_before_witness :
    decimateVerts meshShell.verts ≤ meshShell.verts ∧
    ∃ pre post, mainEvents envOk = pre ++ perMeshEvents meshShell ++ post :=
  after_le_before envOk objsOk rfl rfl (by decide) (fun _ _ => rfl) meshShell (by decide)

/-- C2: in every run that reaches the export call, the modifier events
preceding the export are exactly, per mesh in scene order, one attachment
of the decimate modifier configured as COLLAPSE with the target ratio and
collapse triangulation, immediately followed by one application of it; no
modifier event follows the export and no export event precedes it. -/
theorem modifiers_before_export (env : HostEnv) (objs : List SceneObject)
    (hr : env.readFactoryResult = Except.ok ())
    (hi : env.importResult = Except.ok objs)
    (hm : meshObjects objs ≠ [])
    (ha : ∀ o ∈ meshObjects objs, env.applyModifierResult o = Except.ok ())
    (h0 : totalVerts (meshObjects objs) ≠ 0) :
    ∃ pre post, mainEvents env = pre ++ Event.exportGltf (exportCfg env) :: post ∧
      pre.filter isModifierEvent = modifierEvents (meshObjects objs) ∧
      post.filter isModifierEvent = [] ∧
      pre.filter isExportEvent = [] := by
  obtain ⟨post, hsplit, hpm, hpe⟩ := mainEvents_export_split env objs hr hi hm ha h0
  refine ⟨_, post, hsplit, ?_, hpm, ?_⟩
  · simp [List.filter_append, filter_mod_eventsOfMeshes, filter_mod_selectEvents,
      foundEvents, importEvents, headerEvents, isModifierEvent]
  · simp [List.filter_append, filter_export_eventsOfMeshes, filter_export_selectEvents,
      foundEvents, importEvents, headerEvents, isExportEvent]

/-- C2 witness: the concrete successful run instantiates the split around
its export event. -/
theorem modifiers_before_export_witness :
    ∃ pre post, mainEvents envOk = pre ++ Event.exportGltf (exportCfg envOk) :: post ∧
      pre.filter isModifierEvent = modifierEvents (meshObjects objsOk) ∧
      post.filter isModifierEvent = [] ∧
      pre.filter isExportEvent = [] :=
  modifiers_before_export envOk objsOk rfl rfl (by decide) (fun _ _ => rfl) (by decide)

/-- C7: every run that reaches the export emits one selection event per
processed mesh immediately before the export call, whose configuration
names the output path, the binary GLB format, selection-only export, and
permanent application of modifiers. -/
theorem export_selected_glb (env : HostEnv) (objs : List SceneObject)
    (hr : env.readFactoryResult = Except.ok ())
    (hi : env.importResult = Except.ok objs)
    (hm : meshObjects objs ≠ [])
    (ha : ∀ o ∈ meshObjects objs, env.applyModifierResult o = Except.ok ())
    (h0 : totalVerts (meshObjects objs) ≠ 0) :
    ∃ pre post, mainEvents env =
      pre ++ selectEvents (meshObjects objs) ++
      [Event.printExporting (outputFile env), Event.exportGltf (exportCfg env)] ++ post ∧
      selectEvents (meshObjects objs) =
        (meshObjects objs).map (fun o => Event.selectSet o.name true) ∧
      exportCfg env = { filepath := outputFile env, export_format := "GLB",
                        use_selection := true, export_apply := true } := by
  obtain ⟨post, hsplit, -, -⟩ := mainEvents_export_split env objs hr hi hm ha h0
  refine ⟨foundEvents env objs ++ eventsOfMeshes (meshObjects objs) ++
    [Event.printTotal (totalVerts (meshObjects objs))
      (totalVerts (decimatedMeshes (meshObjects objs))) (reductionPct objs)],
    post, ?_, rfl, rfl⟩
  rw [hsplit]
  simp [List.append_assoc]

/-- C7 witness: the concrete successful run instantiates the selection and
export block. -/
theorem export_selected_glb_witness :
    ∃ pre post, mainEvents envOk =
      pre ++ selectEvents (meshObjects objsOk) ++
      [Event.printExporting (outputFile envOk), Event.exportGltf (exportCfg envOk)] ++ post ∧
      selectEvents (meshObjects objsOk) =
        (meshObjects objsOk).map (fun o => Event.selectSet o.name true) ∧
      exportCfg envOk = { filepath := outputFile envOk, export_format := "GLB",
                          use_selection := true, export_apply := true } :=
  export_selected_glb envOk objsOk rfl rfl (by decide) (fun _ _ => rfl) (by decide)
